import Mathlib

/-!
Shallow embedding of the protocol core of the `weishaupt_modbus_rg`
integration: the constants of `const.py`, the item model of `items.py`,
the register object and connection manager of `modbusobject.py`, and the
polling coordinator of `coordinator.py`.

Mutation of Python objects is modelled by explicit state passing: a method
that mutates `self._modbus_item` returns the updated item next to its
result.  Transport effects (connect, close, register reads) and log calls
are recorded as boolean fields of the result so that theorems can speak
about "the transport was not touched" or "a warning was logged".  Wall
clock time (`loop.time()`) is modelled in integer seconds.
-/

namespace Weishaupt

/- Constants of `FormatConstants` in `const.py`. -/
namespace FORMATS

def TEMPERATURE : String := "temperature"

def PERCENTAGE : String := "percentage"

def NUMBER : String := "number"

def STATUS : String := "status"

def UNKNOWN : String := "unknown"

end FORMATS

/- Constants of `TypeConstants` in `const.py`. -/
namespace TYPES

def SENSOR : String := "Sensor"

def SENSOR_CALC : String := "Sensor_Calc"

def SELECT : String := "Select"

def NUMBER : String := "Number"

def NUMBER_RO : String := "Number_RO"

end TYPES

/- Constants of `DeviceConstants` in `const.py` (the ones the coordinator
inspects, plus some used as concrete witnesses). -/
namespace DEVICES

def SYS : String := "dev_system"

def WP : String := "dev_waermepumpe"

def WW : String := "dev_warmwasser"

def HZ : String := "dev_heizkreis"

def HZ2 : String := "dev_heizkreis2"

def HZ3 : String := "dev_heizkreis3"

def HZ4 : String := "dev_heizkreis4"

def HZ5 : String := "dev_heizkreis5"

def ST : String := "dev_statistik"

def UK : String := "dev_unknown"

end DEVICES

/-- The mutable slice of a `ModbusItem` (`items.py`) that the protocol core
reads and writes: the immutable descriptor fields plus the runtime `state`
and `is_invalid` flag. -/
structure ModbusItem where
  address : Nat
  name : String
  format : String
  type : String
  device : String
  translation_key : String
  state : Option Int
  is_invalid : Bool
  deriving Repr, DecidableEq

namespace ModbusObject

/-- Embedding of `ModbusObject.check_temperature` (`modbusobject.py`): validates a raw
temperature register value.  Returns the translated value (or `none`) and
the item with its `is_invalid` flag updated exactly as the method does. -/
def check_temperature (item : ModbusItem) (val : Int) : Option Int × ModbusItem :=
  if val = -32768 then
    (none, { item with is_invalid := true })
  else if val = 32768 then
    (none, { item with is_invalid := true })
  else if val = -32767 then
    (some (-999), { item with is_invalid := false })
  else if val > 32768 then
    (some (val - 65536), { item with is_invalid := false })
  else
    (some val, { item with is_invalid := false })

/-- Embedding of `ModbusObject.check_percentage`. -/
def check_percentage (item : ModbusItem) (val : Int) : Option Int × ModbusItem :=
  if val = 65535 then
    (none, { item with is_invalid := true })
  else
    (some val, { item with is_invalid := false })

/-- Embedding of `ModbusObject.check_status`. -/
def check_status (item : ModbusItem) (val : Int) : Option Int × ModbusItem :=
  (some val, { item with is_invalid := false })

/-- Embedding of `ModbusObject.check_valid_result`: dispatch on the data kind. -/
def check_valid_result (item : ModbusItem) (val : Int) : Option Int × ModbusItem :=
  if item.format = FORMATS.TEMPERATURE then
    check_temperature item val
  else if item.format = FORMATS.PERCENTAGE then
    check_percentage item val
  else if item.format = FORMATS.STATUS then
    check_status item val
  else
    (some val, { item with is_invalid := false })

/-- Embedding of `ModbusObject.check_valid_response`: inverse-encode a value before a
write, two's-complementing negative temperatures. -/
def check_valid_response (item : ModbusItem) (val : Int) : Int :=
  if item.format = FORMATS.TEMPERATURE then
    if val < 0 then val + 65536 else val
  else
    val

end ModbusObject

/-- Constant `BACKOFF_BASE_SECONDS` of `modbusobject.py` (5 minutes). -/
def BACKOFF_BASE_SECONDS : Int := 5 * 60

/-- Constant `BACKOFF_MAX_SECONDS` of `modbusobject.py` (60 minutes). -/
def BACKOFF_MAX_SECONDS : Int := 60 * 60

/-- Constant `BACKOFF_THRESHOLD_FAILURES` of `modbusobject.py`. -/
def BACKOFF_THRESHOLD_FAILURES : Nat := 3

/-- The connection-manager state of `ModbusAPI`: the in-flight guard, the
consecutive-failure counter, the timestamp of the last attempt and the
transport's connected flag (`self._modbus_client.connected`). -/
structure ModbusAPIState where
  connect_pending : Bool
  failed_reconnect_counter : Nat
  last_connection_try : Option Int
  connected : Bool
  deriving Repr, DecidableEq

/-- What the `await self._modbus_client.connect()` attempt does, covering
the four failure paths of `ModbusAPI.connect`. -/
inductive ConnectOutcome where
  | success
  | notConnected
  | modbusException
  | networkError
  | unexpectedError
  deriving Repr, DecidableEq

/-- Result of one `ModbusAPI.connect` call: the returned boolean, the
post-state, and whether the transport's `connect()` / `close()` and the
`_log_backoff_start` notification were invoked during the call. -/
structure ConnectResult where
  ret : Bool
  state : ModbusAPIState
  attempted : Bool
  closed : Bool
  backoffLogged : Bool
  deriving Repr, DecidableEq

namespace ModbusAPI

/-- Embedding of `ModbusAPI.connect` (`modbusobject.py`): early-return when an attempt
is already pending; otherwise compute the exponential backoff window,
skip the attempt when still inside it, and else record the attempt time
and run the transport connect, handling the success and the four failure
paths.  The `finally` clause clearing `_connect_pending` is reflected in
every post-state of a call that took the guard. -/
def connect (s : ModbusAPIState) (startup : Bool) (now : Int)
    (outcome : ConnectOutcome) : ConnectResult :=
  if s.connect_pending then
    { ret := s.connected, state := s, attempted := false, closed := false,
      backoffLogged := false }
  else
    let backoff : Int :=
      if s.failed_reconnect_counter ≥ BACKOFF_THRESHOLD_FAILURES ∧ startup = false then
        min (BACKOFF_BASE_SECONDS * 2 ^ (s.failed_reconnect_counter - BACKOFF_THRESHOLD_FAILURES))
          BACKOFF_MAX_SECONDS
      else 0
    let inWindow : Bool :=
      if backoff > 0 ∧ startup = false then
        match s.last_connection_try with
        | some t0 => decide (now - t0 < backoff)
        | none => false
      else false
    if inWindow then
      { ret := false, state := { s with connect_pending := false },
        attempted := false, closed := false, backoffLogged := false }
    else
      let s1 : ModbusAPIState :=
        { s with connect_pending := false, last_connection_try := some now }
      match outcome with
      | .success =>
          { ret := true,
            state := { s1 with failed_reconnect_counter := 0, connected := true },
            attempted := true, closed := false, backoffLogged := false }
      | .notConnected =>
          let c := s.failed_reconnect_counter + 1
          if c = BACKOFF_THRESHOLD_FAILURES ∧ startup = false then
            { ret := false,
              state := { s1 with failed_reconnect_counter := c, connected := false },
              attempted := true, closed := false, backoffLogged := true }
          else
            { ret := false,
              state := { s1 with failed_reconnect_counter := c, connected := false },
              attempted := true, closed := true, backoffLogged := false }
      | _ =>
          let c := s.failed_reconnect_counter + 1
          { ret := false,
            state := { s1 with failed_reconnect_counter := c, connected := false },
            attempted := true, closed := true,
            backoffLogged := decide (c = BACKOFF_THRESHOLD_FAILURES ∧ startup = false) }

end ModbusAPI

/-- A transport response as `validate_modbus_answer` inspects it:
`mbr.isError()`, the exception code carried by an error response,
`isinstance(mbr, ExceptionResponse)` for a non-error exception message,
and the payload registers. -/
structure ModbusResponse where
  isError : Bool
  exception_code : Nat
  isExceptionResponse : Bool
  registers : List Int
  deriving Repr, DecidableEq

/-- Result of `validate_modbus_answer` / `get_value`: the value (or `none`),
the item with its flag possibly updated, and whether a warning was logged. -/
structure ValidateResult where
  value : Option Int
  item : ModbusItem
  warned : Bool
  deriving Repr, DecidableEq

namespace ModbusObject

/-- Embedding of `ModbusObject.validate_modbus_answer` (`modbusobject.py`): an error
response with exception code 2 silently marks the item invalid; any other
error response, and any non-error `ExceptionResponse`, is logged as a
warning and yields nothing; otherwise the first payload register is run
through `check_valid_result`. -/
def validate_modbus_answer (item : ModbusItem) (mbr : ModbusResponse) :
    ValidateResult :=
  if mbr.isError then
    if mbr.exception_code = 2 then
      { value := none, item := { item with is_invalid := true }, warned := false }
    else
      { value := none, item := item, warned := true }
  else if mbr.isExceptionResponse then
    { value := none, item := item, warned := true }
  else
    match mbr.registers with
    | [] => { value := none, item := item, warned := false }
    | v :: _ =>
        let r := check_valid_result item v
        { value := r.1, item := r.2, warned := false }

/-- Which register class a read went to, mirroring the dispatch in
`get_value` (input registers for sensors, holding registers for
select/number kinds). -/
inductive RegisterClass where
  | input
  | holding
  deriving Repr, DecidableEq

/-- What the transport does when `get_value` issues a read: either it
returns a response or it raises a `ModbusException`. -/
inductive ReadOutcome where
  | response (mbr : ModbusResponse)
  | modbusException
  deriving Repr, DecidableEq

/-- Result of one `get_value` call: the value, the updated item, and the
register read the call issued (`none` when the transport was not touched). -/
structure GetValueResult where
  value : Option Int
  item : ModbusItem
  readIssued : Option RegisterClass
  warned : Bool
  deriving Repr, DecidableEq

/-- Embedding of `ModbusObject.get_value` (`modbusobject.py`): yields nothing without a
client or without a connection; only reads the transport when the item is
not already marked invalid, dispatching by access kind; a transport
exception during the read is caught and yields nothing. -/
def get_value (clientPresent connected no_connect_warn : Bool)
    (item : ModbusItem) (outcome : ReadOutcome) : GetValueResult :=
  if clientPresent = false then
    { value := none, item := item, readIssued := none, warned := false }
  else if connected = false then
    if no_connect_warn then
      { value := none, item := item, readIssued := none, warned := false }
    else
      { value := none, item := item, readIssued := none, warned := true }
  else if item.is_invalid = false then
    if item.type = TYPES.SENSOR ∨ item.type = TYPES.SENSOR_CALC then
      match outcome with
      | .response mbr =>
          let r := validate_modbus_answer item mbr
          { value := r.value, item := r.item, readIssued := some .input,
            warned := r.warned }
      | .modbusException =>
          { value := none, item := item, readIssued := some .input,
            warned := true }
    else if item.type = TYPES.SELECT ∨ item.type = TYPES.NUMBER ∨
        item.type = TYPES.NUMBER_RO then
      match outcome with
      | .response mbr =>
          let r := validate_modbus_answer item mbr
          { value := r.value, item := r.item, readIssued := some .holding,
            warned := r.warned }
      | .modbusException =>
          { value := none, item := item, readIssued := some .holding,
            warned := true }
    else
      { value := none, item := item, readIssued := none, warned := true }
  else
    { value := none, item := item, readIssued := none, warned := false }

end ModbusObject

/-- The sub-device enable flags of the config entry that
`check_configured` consults (`CONF.HK2` .. `CONF.HK5`). -/
structure ConfigData where
  HK2 : Bool
  HK3 : Bool
  HK4 : Bool
  HK5 : Bool
  deriving Repr, DecidableEq

/-- Embedding of `check_configured` (`coordinator.py`): items of the optional heating
circuits 2-5 are configured iff the matching config flag is set; items of
every other sub-device are always configured. -/
def check_configured (item : ModbusItem) (config : ConfigData) : Bool :=
  if item.device = DEVICES.HZ2 then config.HK2
  else if item.device = DEVICES.HZ3 then config.HK3
  else if item.device = DEVICES.HZ4 then config.HK4
  else if item.device = DEVICES.HZ5 then config.HK5
  else true

namespace MyCoordinator

/-- One step of the `fetch_data` loop body for a single index: skip
out-of-range indices, skip unconfigured items, and for the monitored
access kinds record the read value under the item's `translation_key`
and log that a read for that index was performed. -/
def fetch_step (items : List ModbusItem) (config : ConfigData)
    (reads : Nat → Option Int)
    (acc : List (String × Option Int) × List Nat) (index : Nat) :
    List (String × Option Int) × List Nat :=
  match items[index]? with
  | none => acc
  | some item =>
      if check_configured item config = false then acc
      else if item.type = TYPES.SENSOR ∨ item.type = TYPES.NUMBER_RO ∨
          item.type = TYPES.NUMBER ∨ item.type = TYPES.SELECT ∨
          item.type = TYPES.SENSOR_CALC then
        (acc.1 ++ [(item.translation_key, reads index)], acc.2 ++ [index])
      else acc

/-- Embedding of `MyCoordinator.fetch_data` (`coordinator.py`): resolve the index set
(`None` or empty means all items), fail softly to an empty snapshot when
`_ensure_connection` fails, and otherwise iterate `fetch_step` over the
indices.  `reads` abstracts `get_value`'s result per index; the second
component collects the indices actually read. -/
def fetch_data (items : List ModbusItem) (config : ConfigData)
    (ensured : Bool) (reads : Nat → Option Int) (idx : Option (List Nat)) :
    List (String × Option Int) × List Nat :=
  let to_update : List Nat :=
    match idx with
    | none => List.range items.length
    | some l => if l.length = 0 then List.range items.length else l
  if ensured = false then ([], [])
  else to_update.foldl (fetch_step items config reads) ([], [])

/-- The exceptional ways a poll cycle can end inside
`MyCoordinator._async_update_data`: a `ModbusException` from the cycle or
the 10-second `asyncio.timeout` firing as `TimeoutError`. -/
inductive CycleInterrupt where
  | modbusException
  | timeoutError
  deriving Repr, DecidableEq

/-- Embedding of `MyCoordinator._async_update_data` (`coordinator.py`): run the fetch
under a 10 s timeout, and convert a `ModbusException` or `TimeoutError`
into an empty snapshot instead of propagating it. -/
def async_update_data (interrupt : Option CycleInterrupt)
    (fetched : List (String × Option Int)) : List (String × Option Int) :=
  match interrupt with
  | some .modbusException => []
  | some .timeoutError => []
  | none => fetched

end MyCoordinator

/-! ## Concrete fixtures used by the witness theorems -/

/-- A concrete temperature sensor item. -/
def tempItem : ModbusItem :=
  { address := 30001, name := "Aussentemperatur", format := FORMATS.TEMPERATURE,
    type := TYPES.SENSOR, device := DEVICES.WP,
    translation_key := "aussentemperatur", state := none, is_invalid := false }

/-! ## Claims -/

/-- C1: `check_temperature` on a raw 16-bit value `v`: for `v = -32768` or
`v = 32768` the result is absent and the invalid flag is set; for
`v = -32767` the result is `-999` and the flag is cleared; for `v > 32768`
the result is `v - 65536` and the flag is cleared; otherwise the result is
`v` and the flag is cleared. -/
theorem check_temperature_spec (item : ModbusItem) (val : Int) :
    ((val = -32768 ∨ val = 32768) →
      (ModbusObject.check_temperature item val).1 = none ∧
      (ModbusObject.check_temperature item val).2.is_invalid = true) ∧
    (val = -32767 →
      (ModbusObject.check_temperature item val).1 = some (-999) ∧
      (ModbusObject.check_temperature item val).2.is_invalid = false) ∧
    (val > 32768 →
      (ModbusObject.check_temperature item val).1 = some (val - 65536) ∧
      (ModbusObject.check_temperature item val).2.is_invalid = false) ∧
    (val ≠ -32768 → val ≠ 32768 → val ≠ -32767 → ¬val > 32768 →
      (ModbusObject.check_temperature item val).1 = some val ∧
      (ModbusObject.check_temperature item val).2.is_invalid = false) := by
  unfold ModbusObject.check_temperature
  refine ⟨?_, ?_, ?_, ?_⟩ <;> intros <;> split_ifs <;> simp_all

/-- Witness for C1: the four branches at the concrete raws `32768`,
`-32767`, `65290` (the spec's scenario, decoding to `-246`) and `100`. -/
theorem check_temperature_spec_witness :
    ((ModbusObject.check_temperature tempItem 32768).1 = none ∧
      (ModbusObject.check_temperature tempItem 32768).2.is_invalid = true) ∧
    ((ModbusObject.check_temperature tempItem (-32767)).1 = some (-999) ∧
      (ModbusObject.check_temperature tempItem (-32767)).2.is_invalid = false) ∧
    ((ModbusObject.check_temperature tempItem 65290).1 = some (-246) ∧
      (ModbusObject.check_temperature tempItem 65290).2.is_invalid = false) ∧
    ((ModbusObject.check_temperature tempItem 100).1 = some 100 ∧
      (ModbusObject.check_temperature tempItem 100).2.is_invalid = false) := by
  have h1 := (check_temperature_spec tempItem 32768).1 (Or.inr rfl)
  have h2 := (check_temperature_spec tempItem (-32767)).2.1 rfl
  have h3 := (check_temperature_spec tempItem 65290).2.2.1 (by decide)
  have h4 := (check_temperature_spec tempItem 100).2.2.2
    (by decide) (by decide) (by decide) (by decide)
  refine ⟨h1, h2, ⟨?_, h3.2⟩, h4⟩
  simpa using h3.1

/-- C3: write-then-read round trip for temperatures: for `-32767 < n < 0`
the write path encodes `n` as `n + 65536`, and decoding that raw value
yields `n` again with the item marked valid. -/
theorem temperature_roundtrip_spec (item : ModbusItem) (n : Int)
    (hfmt : item.format = FORMATS.TEMPERATURE) (h1 : -32767 < n) (h2 : n < 0) :
    ModbusObject.check_valid_response item n = n + 65536 ∧
    (ModbusObject.check_temperature item (n + 65536)).1 = some n ∧
    (ModbusObject.check_temperature item (n + 65536)).2.is_invalid = false := by
  refine ⟨?_, ?_, ?_⟩
  · simp [ModbusObject.check_valid_response, hfmt, h2]
  · unfold ModbusObject.check_temperature
    rw [if_neg (by omega), if_neg (by omega), if_neg (by omega), if_pos (by omega)]
    simp only [Option.some.injEq]
    omega
  · unfold ModbusObject.check_temperature
    rw [if_neg (by omega), if_neg (by omega), if_neg (by omega), if_pos (by omega)]

/-- Witness for C3: round trip at `n = -246`, whose encoding is the
spec's scenario raw `65290`. -/
theorem temperature_roundtrip_spec_witness :
    ModbusObject.check_valid_response tempItem (-246) = 65290 ∧
    (ModbusObject.check_temperature tempItem 65290).1 = some (-246) ∧
    (ModbusObject.check_temperature tempItem 65290).2.is_invalid = false := by
  have h := temperature_roundtrip_spec tempItem (-246) rfl (by decide) (by decide)
  simpa using h

/-- C2: with the failure counter `f ≥ 3`, no attempt pending and a
recorded last attempt at `t0`, a non-startup `connect` call at `t0 + t`
with `t < min 3600 (300 * 2 ^ (f - 3))` returns `false` without touching
the transport and without updating the last-attempt timestamp or any
other state; with `t` at or past that bound it proceeds to a real
transport connect attempt. -/
theorem connect_backoff_spec (s : ModbusAPIState) (t0 t : Int)
    (outcome : ConnectOutcome)
    (hp : s.connect_pending = false)
    (hf : 3 ≤ s.failed_reconnect_counter)
    (hl : s.last_connection_try = some t0) :
    (t < min 3600 (300 * 2 ^ (s.failed_reconnect_counter - 3)) →
      ModbusAPI.connect s false (t0 + t) outcome =
        { ret := false, state := { s with connect_pending := false },
          attempted := false, closed := false, backoffLogged := false }) ∧
    (min 3600 (300 * 2 ^ (s.failed_reconnect_counter - 3)) ≤ t →
      (ModbusAPI.connect s false (t0 + t) outcome).attempted = true) := by
  have hpow : (0 : Int) < 2 ^ (s.failed_reconnect_counter - 3) :=
    pow_pos (by norm_num) _
  have hbpos : (0 : Int) < min (300 * 2 ^ (s.failed_reconnect_counter - 3)) 3600 := by
    rw [lt_min_iff]
    exact ⟨mul_pos (by norm_num) hpow, by norm_num⟩
  have hbound : min (3600 : Int) (300 * 2 ^ (s.failed_reconnect_counter - 3)) =
      min (300 * 2 ^ (s.failed_reconnect_counter - 3)) 3600 := min_comm _ _
  constructor
  · intro ht
    rw [hbound] at ht
    unfold ModbusAPI.connect
    simp [hp, hl, hf, BACKOFF_BASE_SECONDS, BACKOFF_MAX_SECONDS,
      BACKOFF_THRESHOLD_FAILURES, hbpos, ht]
  · intro ht
    rw [hbound] at ht
    unfold ModbusAPI.connect
    simp [hp, hl, hf, BACKOFF_BASE_SECONDS, BACKOFF_MAX_SECONDS,
      BACKOFF_THRESHOLD_FAILURES, hbpos, not_lt.mpr ht]
    cases outcome <;> simp <;> split_ifs <;> rfl

/-- A connection-manager state with three recorded consecutive failures,
the last attempt at time 0, no attempt pending and a disconnected
transport. -/
def apiState3 : ModbusAPIState :=
  { connect_pending := false, failed_reconnect_counter := 3,
    last_connection_try := some 0, connected := false }

/-- Like `apiState3` but with only two recorded failures. -/
def apiState2 : ModbusAPIState :=
  { connect_pending := false, failed_reconnect_counter := 2,
    last_connection_try := some 0, connected := false }

/-- A state with an attempt already in flight on a connected transport. -/
def apiStatePending : ModbusAPIState :=
  { connect_pending := true, failed_reconnect_counter := 1,
    last_connection_try := some 5, connected := true }

/-- A quiet state: one failure recorded, nothing pending, disconnected. -/
def apiStateQuiet : ModbusAPIState :=
  { connect_pending := false, failed_reconnect_counter := 1,
    last_connection_try := some 5, connected := false }

/-- Witness for C2: failure counter at 3 and last attempt at time 0, a
non-startup call at 299 s returns false with the state untouched and no
transport activity; a call at 301 s reaches the real connect attempt. -/
theorem connect_backoff_spec_witness :
    ModbusAPI.connect apiState3 false (0 + 299) ConnectOutcome.success =
      { ret := false, state := apiState3, attempted := false, closed := false,
        backoffLogged := false } ∧
    (ModbusAPI.connect apiState3 false (0 + 301) ConnectOutcome.success).attempted =
      true := by
  have h1 := (connect_backoff_spec apiState3 0 299
    ConnectOutcome.success rfl (by decide) rfl).1 (by decide)
  have h2 := (connect_backoff_spec apiState3 0 301
    ConnectOutcome.success rfl (by decide) rfl).2 (by decide)
  exact ⟨h1, h2⟩

/-- C4: whenever `connect` reaches a real transport attempt, a connected
transport resets the failure counter to 0 and the call returns true; every
failed attempt increments the counter by exactly one; a call that makes
no attempt leaves the counter unchanged; and the counter only ever
decreases by the reset to zero. -/
theorem connect_failure_counter_spec (s : ModbusAPIState) (startup : Bool)
    (now : Int) (outcome : ConnectOutcome) :
    ((ModbusAPI.connect s startup now outcome).attempted = true →
      outcome = ConnectOutcome.success →
      (ModbusAPI.connect s startup now outcome).state.failed_reconnect_counter = 0 ∧
      (ModbusAPI.connect s startup now outcome).ret = true) ∧
    ((ModbusAPI.connect s startup now outcome).attempted = true →
      outcome ≠ ConnectOutcome.success →
      (ModbusAPI.connect s startup now outcome).state.failed_reconnect_counter =
        s.failed_reconnect_counter + 1) ∧
    ((ModbusAPI.connect s startup now outcome).attempted = false →
      (ModbusAPI.connect s startup now outcome).state.failed_reconnect_counter =
        s.failed_reconnect_counter) ∧
    ((ModbusAPI.connect s startup now outcome).state.failed_reconnect_counter <
        s.failed_reconnect_counter →
      (ModbusAPI.connect s startup now outcome).state.failed_reconnect_counter = 0) := by
  simp only [ModbusAPI.connect]
  cases outcome <;> split_ifs <;> simp_all [BACKOFF_THRESHOLD_FAILURES]

/-- Witness for C4: a successful attempt from two recorded failures resets
the counter and returns true; a not-connected attempt from the same state
increments it to three. -/
theorem connect_failure_counter_spec_witness :
    ((ModbusAPI.connect apiState2 true 50 ConnectOutcome.success).state.failed_reconnect_counter =
        0 ∧
      (ModbusAPI.connect apiState2 true 50 ConnectOutcome.success).ret = true) ∧
    (ModbusAPI.connect apiState2 true 50
        ConnectOutcome.notConnected).state.failed_reconnect_counter = 2 + 1 := by
  have h1 := (connect_failure_counter_spec apiState2 true 50
    ConnectOutcome.success).1 (by decide) rfl
  have h2 := (connect_failure_counter_spec apiState2 true 50
    ConnectOutcome.notConnected).2.1 (by decide) (by decide)
  exact ⟨h1, h2⟩

/-- C8: a `connect` call finding the in-flight guard set returns the
transport's current connected status at once, with the state (counter,
timestamp, guard) unchanged and neither a transport connect nor a close;
and a call that takes the guard always leaves it cleared. -/
theorem connect_pending_guard_spec (s : ModbusAPIState) (startup : Bool)
    (now : Int) (outcome : ConnectOutcome) :
    (s.connect_pending = true →
      ModbusAPI.connect s startup now outcome =
        { ret := s.connected, state := s, attempted := false, closed := false,
          backoffLogged := false }) ∧
    (s.connect_pending = false →
      (ModbusAPI.connect s startup now outcome).state.connect_pending = false) := by
  constructor
  · intro h
    unfold ModbusAPI.connect
    simp [h]
  · intro h
    simp only [ModbusAPI.connect]
    cases outcome <;> split_ifs <;> simp_all

/-- Witness for C8: with the guard set and a connected transport the call
echoes the status and changes nothing; after a guard-taking failed call
the guard is cleared. -/
theorem connect_pending_guard_spec_witness :
    ModbusAPI.connect apiStatePending false 7 ConnectOutcome.notConnected =
      { ret := true, state := apiStatePending, attempted := false,
        closed := false, backoffLogged := false } ∧
    (ModbusAPI.connect apiStateQuiet false 7
        ConnectOutcome.notConnected).state.connect_pending = false := by
  have h1 := (connect_pending_guard_spec apiStatePending false 7
    ConnectOutcome.notConnected).1 rfl
  have h2 := (connect_pending_guard_spec apiStateQuiet false 7
    ConnectOutcome.notConnected).2 rfl
  exact ⟨h1, h2⟩

/-- Counterexample to C5 as stated: from two recorded failures, a
non-startup attempt whose transport connect returns while the client is
still not connected is a failed attempt (it returns false), yet the code
returns before `self._modbus_client.close()` because the counter just
reached the threshold: the transport handle is not closed. -/
theorem connect_close_missing_cex :
    (ModbusAPI.connect apiState2 false 10 ConnectOutcome.notConnected).attempted =
        true ∧
    (ModbusAPI.connect apiState2 false 10 ConnectOutcome.notConnected).ret = false ∧
    (ModbusAPI.connect apiState2 false 10 ConnectOutcome.notConnected).closed =
      false := by
  decide

/-- C5 as amended: on a failed attempt the transport is closed before the
call returns, except in exactly one case — the connect-returned-but-not-
connected failure of a non-startup call that makes the counter reach the
threshold 3, where the method returns false without closing. -/
theorem connect_close_on_failure_spec (s : ModbusAPIState) (startup : Bool)
    (now : Int) (outcome : ConnectOutcome)
    (hatt : (ModbusAPI.connect s startup now outcome).attempted = true)
    (hfail : outcome ≠ ConnectOutcome.success) :
    (ModbusAPI.connect s startup now outcome).closed = true ↔
      ¬(outcome = ConnectOutcome.notConnected ∧
        s.failed_reconnect_counter + 1 = 3 ∧ startup = false) := by
  simp only [ModbusAPI.connect] at hatt ⊢
  cases outcome <;> split_ifs at hatt ⊢ <;>
    simp_all [BACKOFF_THRESHOLD_FAILURES]

/-- Witness for the amended C5: a modbus-exception failure that crosses
the threshold still closes the transport. -/
theorem connect_close_on_failure_spec_witness :
    (ModbusAPI.connect apiState2 false 10 ConnectOutcome.modbusException).closed =
      true := by
  have h := connect_close_on_failure_spec apiState2 false 10
    ConnectOutcome.modbusException (by decide) (by decide)
  exact h.mpr (by decide)

/-- C6: for an error response, exception code 2 silently marks the item
invalid and yields nothing, while any other code logs a warning, yields
nothing and leaves the item (hence its invalid flag) untouched. -/
theorem validate_modbus_answer_error_spec (item : ModbusItem)
    (mbr : ModbusResponse) (herr : mbr.isError = true) :
    (mbr.exception_code = 2 →
      ModbusObject.validate_modbus_answer item mbr =
        { value := none, item := { item with is_invalid := true },
          warned := false }) ∧
    (mbr.exception_code ≠ 2 →
      ModbusObject.validate_modbus_answer item mbr =
        { value := none, item := item, warned := true }) := by
  unfold ModbusObject.validate_modbus_answer
  constructor <;> intro hc <;> simp [herr, hc]

/-- A concrete error response carrying exception code 2. -/
def errResponse2 : ModbusResponse :=
  { isError := true, exception_code := 2, isExceptionResponse := true,
    registers := [] }

/-- A concrete error response carrying exception code 3. -/
def errResponse3 : ModbusResponse :=
  { isError := true, exception_code := 3, isExceptionResponse := true,
    registers := [] }

/-- Witness for C6: the two error branches at concrete responses with
codes 2 and 3. -/
theorem validate_modbus_answer_error_spec_witness :
    ModbusObject.validate_modbus_answer tempItem errResponse2 =
      { value := none, item := { tempItem with is_invalid := true },
        warned := false } ∧
    ModbusObject.validate_modbus_answer tempItem errResponse3 =
      { value := none, item := tempItem, warned := true } := by
  have h2 := (validate_modbus_answer_error_spec tempItem errResponse2 rfl).1 rfl
  have h3 := (validate_modbus_answer_error_spec tempItem errResponse3 rfl).2
    (by decide)
  exact ⟨h2, h3⟩

/-- C7: a poll cycle interrupted by a `ModbusException` or by the cycle
timeout publishes an empty snapshot instead of propagating. -/
theorem async_update_data_interrupt_spec (i : MyCoordinator.CycleInterrupt)
    (fetched : List (String × Option Int)) :
    MyCoordinator.async_update_data (some i) fetched = [] := by
  cases i <;> rfl

/-- C10: when an item is already flagged invalid, `get_value` yields
nothing, issues no register read at all and leaves the item unchanged
(so the flag stays set). -/
theorem get_value_invalid_item_spec (clientPresent connected no_connect_warn : Bool)
    (item : ModbusItem) (outcome : ModbusObject.ReadOutcome)
    (hinv : item.is_invalid = true) :
    (ModbusObject.get_value clientPresent connected no_connect_warn item
      outcome).value = none ∧
    (ModbusObject.get_value clientPresent connected no_connect_warn item
      outcome).readIssued = none ∧
    (ModbusObject.get_value clientPresent connected no_connect_warn item
      outcome).item = item := by
  unfold ModbusObject.get_value
  split_ifs <;> simp_all

/-- Witness for C10: a connected client asked to read an invalid-flagged
item returns nothing and issues no read, even though the transport would
have had a payload to offer. -/
theorem get_value_invalid_item_spec_witness :
    (ModbusObject.get_value true true false
        { tempItem with is_invalid := true }
        (ModbusObject.ReadOutcome.response
          { isError := false, exception_code := 0, isExceptionResponse := false,
            registers := [42] })).value = none ∧
    (ModbusObject.get_value true true false
        { tempItem with is_invalid := true }
        (ModbusObject.ReadOutcome.response
          { isError := false, exception_code := 0, isExceptionResponse := false,
            registers := [42] })).readIssued = none ∧
    (ModbusObject.get_value true true false
        { tempItem with is_invalid := true }
        (ModbusObject.ReadOutcome.response
          { isError := false, exception_code := 0, isExceptionResponse := false,
            registers := [42] })).item = { tempItem with is_invalid := true } := by
  exact get_value_invalid_item_spec true true false
    { tempItem with is_invalid := true }
    (ModbusObject.ReadOutcome.response
      { isError := false, exception_code := 0, isExceptionResponse := false,
        registers := [42] }) rfl

/-- One `fetch_step` neither reads an index whose item is unconfigured nor
records a snapshot key that only that item carries. -/
lemma fetch_step_avoids (items : List ModbusItem) (config : ConfigData)
    (reads : Nat → Option Int) (key : String) (i : Nat)
    (hconf : ∀ item, items[i]? = some item → check_configured item config = false)
    (hkey : ∀ (j : Nat) (item : ModbusItem), items[j]? = some item →
      item.translation_key = key → j = i)
    (acc : List (String × Option Int) × List Nat) (a : Nat)
    (h1 : i ∉ acc.2) (h2 : key ∉ acc.1.map Prod.fst) :
    i ∉ (MyCoordinator.fetch_step items config reads acc a).2 ∧
    key ∉ (MyCoordinator.fetch_step items config reads acc a).1.map Prod.fst := by
  cases ha : items[a]? with
  | none =>
      have hstep : MyCoordinator.fetch_step items config reads acc a = acc := by
        unfold MyCoordinator.fetch_step
        rw [ha]
      rw [hstep]
      exact ⟨h1, h2⟩
  | some item =>
      have hstep : MyCoordinator.fetch_step items config reads acc a =
          (if check_configured item config = false then acc
           else if item.type = TYPES.SENSOR ∨ item.type = TYPES.NUMBER_RO ∨
               item.type = TYPES.NUMBER ∨ item.type = TYPES.SELECT ∨
               item.type = TYPES.SENSOR_CALC then
             (acc.1 ++ [(item.translation_key, reads a)], acc.2 ++ [a])
           else acc) := by
        unfold MyCoordinator.fetch_step
        rw [ha]
      rw [hstep]
      by_cases hc : check_configured item config = false
      · rw [if_pos hc]
        exact ⟨h1, h2⟩
      · have hai : a ≠ i := fun h => hc (hconf item (h ▸ ha))
        rw [if_neg hc]
        by_cases htyp : item.type = TYPES.SENSOR ∨ item.type = TYPES.NUMBER_RO ∨
            item.type = TYPES.NUMBER ∨ item.type = TYPES.SELECT ∨
            item.type = TYPES.SENSOR_CALC
        · have hk : item.translation_key ≠ key := fun h =>
            hai (hkey a item ha h)
          rw [if_pos htyp]
          constructor
          · simp only [List.mem_append, List.mem_singleton]
            rintro (h | h)
            · exact h1 h
            · exact hai h.symm
          · simp only [List.map_append, List.map_cons, List.map_nil,
              List.mem_append, List.mem_singleton]
            rintro (h | h)
            · exact h2 h
            · exact hk h.symm
        · rw [if_neg htyp]
          exact ⟨h1, h2⟩

/-- Folding `fetch_step` over any index list preserves the avoidance
invariant of `fetch_step_avoids`. -/
lemma fetch_fold_avoids (items : List ModbusItem) (config : ConfigData)
    (reads : Nat → Option Int) (key : String) (i : Nat)
    (hconf : ∀ item, items[i]? = some item → check_configured item config = false)
    (hkey : ∀ (j : Nat) (item : ModbusItem), items[j]? = some item →
      item.translation_key = key → j = i) :
    ∀ (l : List Nat) (acc : List (String × Option Int) × List Nat),
      i ∉ acc.2 → key ∉ acc.1.map Prod.fst →
      i ∉ (l.foldl (MyCoordinator.fetch_step items config reads) acc).2 ∧
      key ∉ (l.foldl (MyCoordinator.fetch_step items config reads) acc).1.map
        Prod.fst := by
  intro l
  induction l with
  | nil => exact fun acc h1 h2 => ⟨h1, h2⟩
  | cons a tl ih =>
      intro acc h1 h2
      simp only [List.foldl_cons]
      have hstep := fetch_step_avoids items config reads key i hconf hkey acc a h1 h2
      exact ih _ hstep.1 hstep.2

/-- C9: an item of a sub-device disabled in the configuration is skipped
by the poll cycle: its index is never read and its identifier never
appears in the snapshot (whatever its access kind, since the configured
check precedes the kind dispatch); and items of sub-devices without a
configuration flag always count as configured. -/
theorem fetch_data_skips_unconfigured (items : List ModbusItem)
    (config : ConfigData) (ensured : Bool) (reads : Nat → Option Int)
    (idx : Option (List Nat)) (i : Nat) (item : ModbusItem)
    (hi : items[i]? = some item)
    (hdis : (item.device = DEVICES.HZ2 ∧ config.HK2 = false) ∨
            (item.device = DEVICES.HZ3 ∧ config.HK3 = false) ∨
            (item.device = DEVICES.HZ4 ∧ config.HK4 = false) ∨
            (item.device = DEVICES.HZ5 ∧ config.HK5 = false))
    (hkey : ∀ (j : Nat) (other : ModbusItem), items[j]? = some other →
      other.translation_key = item.translation_key → j = i) :
    i ∉ (MyCoordinator.fetch_data items config ensured reads idx).2 ∧
    item.translation_key ∉
      (MyCoordinator.fetch_data items config ensured reads idx).1.map Prod.fst ∧
    (∀ o : ModbusItem, o.device ≠ DEVICES.HZ2 → o.device ≠ DEVICES.HZ3 →
      o.device ≠ DEVICES.HZ4 → o.device ≠ DEVICES.HZ5 →
      check_configured o config = true) := by
  have hconf : ∀ it, items[i]? = some it → check_configured it config = false := by
    intro it hit
    rw [hi, Option.some.injEq] at hit
    subst hit
    unfold check_configured
    rcases hdis with ⟨hd, hf⟩ | ⟨hd, hf⟩ | ⟨hd, hf⟩ | ⟨hd, hf⟩ <;>
      simp [hd, hf, DEVICES.HZ2, DEVICES.HZ3, DEVICES.HZ4, DEVICES.HZ5]
  have hfold := fetch_fold_avoids items config reads item.translation_key i hconf hkey
  have hcfg : ∀ o : ModbusItem, o.device ≠ DEVICES.HZ2 → o.device ≠ DEVICES.HZ3 →
      o.device ≠ DEVICES.HZ4 → o.device ≠ DEVICES.HZ5 →
      check_configured o config = true := by
    intro o h2 h3 h4 h5
    unfold check_configured
    simp [h2, h3, h4, h5]
  unfold MyCoordinator.fetch_data
  by_cases he : ensured = false
  · simp only [he, if_true]
    exact ⟨by simp, by simp, hcfg⟩
  · simp only [he, if_false]
    have h := hfold
      (match idx with
        | none => List.range items.length
        | some l => if l.length = 0 then List.range items.length else l)
      ([], []) (by simp) (by simp)
    exact ⟨h.1, h.2, hcfg⟩

/-- A concrete item of the optional second heating circuit. -/
def hz2Item : ModbusItem :=
  { address := 41101, name := "HK2 Soll", format := FORMATS.TEMPERATURE,
    type := TYPES.NUMBER, device := DEVICES.HZ2, translation_key := "hk2_soll",
    state := none, is_invalid := false }

/-- A configuration with the second heating circuit disabled. -/
def cfgNoHK2 : ConfigData :=
  { HK2 := false, HK3 := true, HK4 := true, HK5 := true }

/-- Witness for C9: in a registry holding a heat-pump sensor and a second
heating-circuit item, a cycle with heating circuit 2 disabled reads only
the sensor and the snapshot carries no entry for the circuit item. -/
theorem fetch_data_skips_unconfigured_witness :
    1 ∉ (MyCoordinator.fetch_data [tempItem, hz2Item] cfgNoHK2 true
      (fun _ => some 7) none).2 ∧
    hz2Item.translation_key ∉
      (MyCoordinator.fetch_data [tempItem, hz2Item] cfgNoHK2 true
        (fun _ => some 7) none).1.map Prod.fst ∧
    (∀ o : ModbusItem, o.device ≠ DEVICES.HZ2 → o.device ≠ DEVICES.HZ3 →
      o.device ≠ DEVICES.HZ4 → o.device ≠ DEVICES.HZ5 →
      check_configured o cfgNoHK2 = true) := by
  apply fetch_data_skips_unconfigured [tempItem, hz2Item] cfgNoHK2 true
    (fun _ => some 7) none 1 hz2Item rfl
  · exact Or.inl ⟨rfl, rfl⟩
  · intro j other hj hk
    match j with
    | 0 =>
        rw [show ([tempItem, hz2Item][0]? : Option ModbusItem) = some tempItem
          from rfl, Option.some.injEq] at hj
        subst hj
        exact absurd hk (by decide)
    | 1 => rfl
    | n + 2 => simp at hj

end Weishaupt
